import Mathlib

/-!
# TikAPI Test System — verification of the core comparison/aggregation logic

Shallow embedding of the two source files:

* `src/app.py` — FastAPI service: `TikAPIClient.check_live_status` (Source A
  probe), `check_with_tiktok_live` (Source B probe), `compare_single_user`
  (single comparator), `test_bulk_users` and `compare_bulk_users`
  (batch aggregators with pacing).
* `src/test_tikapi.py` — standalone script: `TikAPITester.check_user_live_status`,
  `_extract_live_status`, `_generate_summary`.

Network effects are modelled by passing the transport outcome and the measured
elapsed time explicitly; Python floats are idealised as rationals (`ℚ`);
`None`-able values are `Option`s; a Python function that cannot raise becomes a
total Lean function.
-/

namespace TikApi

/-- Shape of each probe's result dictionary in `src/app.py`
(`{"success": ..., "is_live": ..., "response_time": ..., "error": ...}`;
the `raw_data` entry of `check_live_status` is never read downstream and is
omitted). -/
structure ProbeResult where
  success : Bool
  is_live : Option Bool
  response_time : ℚ
  error : Option String
deriving Repr, DecidableEq

/-- The innermost `user` object of the TikAPI payload: only its `"roomId"`
entry is read (`src/app.py` line 110). -/
structure UserObj where
  roomId : Option String
deriving Repr, DecidableEq

/-- The `userInfo` object of the TikAPI payload: only its `"user"` entry is
read (`src/app.py` line 109). -/
structure UserInfoObj where
  user : Option UserObj
deriving Repr, DecidableEq

/-- The decoded JSON payload of a 200 response, restricted to the entries
`check_live_status` reads: `data.get("userInfo", {}).get("user", {}).get("roomId")`. -/
structure TikApiPayload where
  userInfo : Option UserInfoObj
deriving Repr, DecidableEq

/-- `data.get("userInfo", {}).get("user", {}).get("roomId")` from
`src/app.py` line 109-110: each missing level defaults to an empty dict. -/
def payloadRoomId (d : TikApiPayload) : Option String :=
  ((d.userInfo.getD ⟨none⟩).user.getD ⟨none⟩).roomId

/-- `user_info.get("roomId") is not None and user_info.get("roomId") != ""`
(`src/app.py` line 110). -/
def roomIdLive (r : Option String) : Bool :=
  match r with
  | none => false
  | some s => !(s == "")

/-- Transport outcome of the HTTP GET in `check_live_status`: either a
response arrived (status code, decoded body, raw text) or some exception was
raised inside the `try` block (timeout, connection failure, JSON decode
failure, ...), carrying its `str(e)` message. -/
inductive HttpOutcome where
  | response (statusCode : Nat) (body : TikApiPayload) (text : String)
  | exception (msg : String)
deriving Repr, DecidableEq

/-- `TikAPIClient.check_live_status` (`src/app.py` lines 87-136), as a function
of the transport outcome and the measured elapsed milliseconds `rt`.
Status 200: success with `is_live` extracted from the payload; any other
status: failure with error `"HTTP {status_code}: {response.text}"`; any
exception: failure with error `str(e)`.  The Python function catches every
exception and always returns a dictionary; correspondingly the embedding is a
total function. -/
def check_live_status (o : HttpOutcome) (rt : ℚ) : ProbeResult :=
  match o with
  | .response code body text =>
    if code == 200 then
      { success := true, is_live := some (roomIdLive (payloadRoomId body)),
        response_time := rt, error := none }
    else
      { success := false, is_live := none, response_time := rt,
        error := some ("HTTP " ++ toString code ++ ": " ++ text) }
  | .exception msg =>
    { success := false, is_live := none, response_time := rt, error := some msg }

/-- Outcome of `client.is_live()` inside `check_with_tiktok_live`
(`src/app.py` lines 151-188): a boolean answer, an `asyncio.TimeoutError`,
a `UserOffline`/`LiveNotFound` exception, or any other exception with its
`str(e)` message. -/
inductive LiveOutcome where
  | ok (is_live : Bool)
  | timeout
  | offlineOrNotFound
  | exception (msg : String)
deriving Repr, DecidableEq

/-- `check_with_tiktok_live` (`src/app.py` lines 139-188), as a function of
the availability flag `TIKTOK_LIVE_AVAILABLE`, the outcome of the underlying
check, and the measured elapsed milliseconds `rt`.  When the library is
unavailable the call short-circuits to a fixed result with
`response_time = 0` before any clock is read. -/
def check_with_tiktok_live (available : Bool) (o : LiveOutcome) (rt : ℚ) :
    ProbeResult :=
  if available then
    match o with
    | .ok b =>
      { success := true, is_live := some b, response_time := rt, error := none }
    | .timeout =>
      { success := false, is_live := none, response_time := rt,
        error := some "Timeout" }
    | .offlineOrNotFound =>
      { success := true, is_live := some false, response_time := rt,
        error := none }
    | .exception msg =>
      { success := false, is_live := none, response_time := rt,
        error := some msg }
  else
    { success := false, is_live := none, response_time := 0,
      error := some "TikTokLive not available" }

/-- The `TestResult` pydantic model of `src/app.py` (lines 53-64), with the
Python `match` field renamed `matchField` (`match` is a Lean keyword) and the
wall-clock `tested_at` timestamp omitted. -/
structure TestResult where
  username : String
  tikapi_success : Bool
  tikapi_is_live : Option Bool
  tikapi_response_time : Option ℚ
  tikapi_error : Option String
  tiktok_live_success : Bool
  tiktok_live_is_live : Option Bool
  tiktok_live_response_time : Option ℚ
  tiktok_live_error : Option String
  matchField : Option Bool
deriving Repr, DecidableEq

/-- `compare_single_user` (`src/app.py` lines 261-293): runs both probes
(modelled by their outcomes and elapsed times) and computes
`match = None; if both succeeded: match = (a.is_live == b.is_live)`. -/
def compare_single_user (username : String) (aOut : HttpOutcome) (aRt : ℚ)
    (bAvail : Bool) (bOut : LiveOutcome) (bRt : ℚ) : TestResult :=
  let a := check_live_status aOut aRt
  let b := check_with_tiktok_live bAvail bOut bRt
  let m : Option Bool :=
    if a.success && b.success then some (a.is_live == b.is_live) else none
  { username := username,
    tikapi_success := a.success, tikapi_is_live := a.is_live,
    tikapi_response_time := some a.response_time, tikapi_error := a.error,
    tiktok_live_success := b.success, tiktok_live_is_live := b.is_live,
    tiktok_live_response_time := some b.response_time,
    tiktok_live_error := b.error,
    matchField := m }

/-- Python truthiness of an `Optional[float]`: `None` and `0.0` are falsy.
Used by the list comprehensions `[... for r in results if r.tikapi_response_time]`
(`src/app.py` lines 316-317) and the generator on line 249. -/
def pyTruthyQ (q : Option ℚ) : Bool :=
  match q with
  | none => false
  | some x => !(decide (x = 0))

/-- Python 3 `round` to an integer: round half to even on the exact value. -/
def roundHalfEven (q : ℚ) : ℤ :=
  if q - ⌊q⌋ < 1 / 2 then ⌊q⌋
  else if 1 / 2 < q - ⌊q⌋ then ⌊q⌋ + 1
  else if ⌊q⌋ % 2 = 0 then ⌊q⌋ else ⌊q⌋ + 1

/-- Python `round(x, 2)` on the idealised rational value. -/
def pyRound2 (q : ℚ) : ℚ := (roundHalfEven (q * 100) : ℚ) / 100

/-- The `ComparisonStats` pydantic model of `src/app.py` (lines 66-73). -/
structure ComparisonStats where
  total_tests : Nat
  tikapi_success_rate : ℚ
  tiktok_live_success_rate : ℚ
  match_rate : ℚ
  tikapi_avg_response_time : ℚ
  tiktok_live_avg_response_time : ℚ
  results : List TestResult
deriving Repr, DecidableEq

/-- The statistics block of `compare_bulk_users` (`src/app.py` lines 310-330).
On an empty result list Python raises `ZeroDivisionError` when computing
`tikapi_success_rate`, so the embedding returns `none` there.
`matches` counts `r.match is True`; the latency lists keep the entries whose
`Optional[float]` response time is truthy (not `None` and not `0`). -/
def compare_bulk_stats (results : List TestResult) : Option ComparisonStats :=
  match results with
  | [] => none
  | _ :: _ =>
    let total : Nat := results.length
    let tikapi_success : Nat := (results.filter (·.tikapi_success)).length
    let tiktok_live_success : Nat :=
      (results.filter (·.tiktok_live_success)).length
    let matchCount : Nat :=
      (results.filter (fun r => r.matchField == some true)).length
    let tikapi_times : List ℚ :=
      (results.filter (fun r => pyTruthyQ r.tikapi_response_time)).map
        (fun r => r.tikapi_response_time.getD 0)
    let tiktok_live_times : List ℚ :=
      (results.filter (fun r => pyTruthyQ r.tiktok_live_response_time)).map
        (fun r => r.tiktok_live_response_time.getD 0)
    let tikapi_avg : ℚ :=
      if tikapi_times.isEmpty then 0
      else tikapi_times.sum / tikapi_times.length
    let tiktok_live_avg : ℚ :=
      if tiktok_live_times.isEmpty then 0
      else tiktok_live_times.sum / tiktok_live_times.length
    some
      { total_tests := total,
        tikapi_success_rate := ((tikapi_success : ℚ) / total) * 100,
        tiktok_live_success_rate := ((tiktok_live_success : ℚ) / total) * 100,
        match_rate :=
          if 0 < matchCount then ((matchCount : ℚ) / total) * 100 else 0,
        tikapi_avg_response_time := pyRound2 tikapi_avg,
        tiktok_live_avg_response_time := pyRound2 tiktok_live_avg,
        results := results }

/-- Per-user entry built inside the `test_bulk_users` loop
(`src/app.py` lines 236-242). -/
structure BulkEntry where
  username : String
  success : Bool
  is_live : Option Bool
  response_time_ms : ℚ
  error : Option String
deriving Repr, DecidableEq

/-- One iteration of the `test_bulk_users` loop body: probe the user with
`check_live_status` and record its fields. -/
def test_bulk_entry (u : String) (o : HttpOutcome) (rt : ℚ) : BulkEntry :=
  let r := check_live_status o rt
  { username := u, success := r.success, is_live := r.is_live,
    response_time_ms := r.response_time, error := r.error }

/-- The summary object returned by `test_bulk_users` (`src/app.py` lines
252-259), restricted to the numeric fields (`success_rate` is kept as the
numeric value that the `f"{...:.1f}%"` string formats; the `results` echo and
the `tested_at` timestamp are omitted). -/
structure TestBulkSummary where
  total_users : Nat
  success_count : Nat
  success_rate : ℚ
  avg_response_time_ms : ℚ
deriving Repr, DecidableEq

/-- The statistics block of `test_bulk_users` (`src/app.py` lines 247-259).
`total_response_time` sums the truthy (non-`None`, nonzero) response times,
but `avg_response_time` divides by the full `len(results)`; `success_rate`
divides by `len(request.usernames)` (equal to `len(results)`) and raises
`ZeroDivisionError` on an empty batch, so the embedding returns `none` there. -/
def test_bulk_stats (entries : List BulkEntry) : Option TestBulkSummary :=
  match entries with
  | [] => none
  | _ :: _ =>
    let success_count : Nat := (entries.filter (·.success)).length
    let total_response_time : ℚ :=
      ((entries.filter (fun e => !(decide (e.response_time_ms = 0)))).map
        (·.response_time_ms)).sum
    let avg_response_time : ℚ := total_response_time / entries.length
    some
      { total_users := entries.length,
        success_count := success_count,
        success_rate := ((success_count : ℚ) / entries.length) * 100,
        avg_response_time_ms := pyRound2 avg_response_time }

/-- The shared shape of the batch loops in `test_bulk_users` (`src/app.py`
lines 234-245) and `compare_bulk_users` (lines 303-308): iterate the
identifiers strictly sequentially, append each step's result, and call
`await asyncio.sleep(0.5)` once at the end of every iteration.  The second
component counts the `asyncio.sleep` calls performed. -/
def paced_loop {α : Type} (step : String → α) (usernames : List String) :
    List α × Nat :=
  usernames.foldl (fun acc u => (acc.1 ++ [step u], acc.2 + 1)) ([], 0)

/-- `test_bulk_users` (`src/app.py` lines 225-259): the paced loop over the
requested usernames followed by the statistics block.  The transport outcome
and elapsed time of each user's probe are supplied by oracle functions.
Returns the summary together with the number of pacing delays performed. -/
def test_bulk_users (usernames : List String) (out : String → HttpOutcome)
    (rt : String → ℚ) : Option TestBulkSummary × Nat :=
  let lr := paced_loop (fun u => test_bulk_entry u (out u) (rt u)) usernames
  (test_bulk_stats lr.1, lr.2)

/-- `compare_bulk_users` (`src/app.py` lines 295-330): the paced loop driving
`compare_single_user` over the requested usernames followed by the statistics
block.  Probe outcomes and elapsed times are supplied by oracle functions.
Returns the stats together with the number of pacing delays performed. -/
def compare_bulk_users (usernames : List String)
    (aOut : String → HttpOutcome) (aRt : String → ℚ) (bAvail : Bool)
    (bOut : String → LiveOutcome) (bRt : String → ℚ) :
    Option ComparisonStats × Nat :=
  let lr := paced_loop
    (fun u => compare_single_user u (aOut u) (aRt u) bAvail (bOut u) (bRt u))
    usernames
  (compare_bulk_stats lr.1, lr.2)

/-! ## The standalone script `src/test_tikapi.py` -/

/-- The decoded payload as read by `TikAPITester._extract_live_status`
(`src/test_tikapi.py` lines 96-111): an optional `"user"` container and an
optional `"data"` container, each holding an optional `"is_live"` boolean
(`some none` models a container present without an `"is_live"` key). -/
structure ScriptPayload where
  user : Option (Option Bool)
  data : Option (Option Bool)
deriving Repr, DecidableEq

/-- `TikAPITester._extract_live_status` (`src/test_tikapi.py` lines 96-111):
`if 'user' in data: return data['user'].get('is_live', False)`,
`elif 'data' in data: return data['data'].get('is_live', False)`,
else `False`.  Note the function returns from the FIRST PRESENT container,
whether or not that container carries a truthy `is_live`. -/
def extract_live_status (p : ScriptPayload) : Bool :=
  match p.user with
  | some u => u.getD false
  | none =>
    match p.data with
    | some d => d.getD false
    | none => false

/-- The claim's reading of the extractor, stated from the spec's words for
comparison: inspect the known fields in priority order and return the first
TRUTHY signal, i.e. report live as soon as any known field holds a truthy
value. -/
def extract_first_truthy_signal (p : ScriptPayload) : Bool :=
  (p.user.getD none).getD false || (p.data.getD none).getD false

/-- Transport outcome of the `requests.get` call in
`check_user_live_status`: a response (status code and decoded payload), a
`requests.exceptions.Timeout`, or any other exception with its `str(e)`. -/
inductive ScriptOutcome where
  | response (statusCode : Nat) (body : ScriptPayload)
  | timeout
  | exception (msg : String)
deriving Repr, DecidableEq

/-- Per-user result dictionary of `TikAPITester.check_user_live_status`
(`src/test_tikapi.py` lines 28-94).  The success dictionary has no `error`
key and the failure dictionaries have no `is_live` key; an absent key is
`none`.  The `timestamp`, `status_code` and `raw_data` entries are never read
by the summary and are omitted. -/
structure ScriptResult where
  username : String
  success : Bool
  is_live : Option Bool
  response_time : ℚ
  error : Option String
deriving Repr, DecidableEq

/-- `TikAPITester.check_user_live_status` (`src/test_tikapi.py` lines 28-94)
as a function of the transport outcome and the elapsed seconds.  Status 200:
success with `is_live` from `_extract_live_status`; other statuses: failure
with error `"HTTP {status_code}"`; timeout: failure with error `"Timeout"`;
any other exception: failure with error `str(e)`.  The Python function
catches every exception and always returns a dictionary; correspondingly the
embedding is total. -/
def check_user_live_status (u : String) (o : ScriptOutcome) (rt : ℚ) :
    ScriptResult :=
  match o with
  | .response code body =>
    if code == 200 then
      { username := u, success := true,
        is_live := some (extract_live_status body),
        response_time := rt, error := none }
    else
      { username := u, success := false, is_live := none,
        response_time := rt, error := some ("HTTP " ++ toString code) }
  | .timeout =>
    { username := u, success := false, is_live := none,
      response_time := rt, error := some "Timeout" }
  | .exception msg =>
    { username := u, success := false, is_live := none,
      response_time := rt, error := some msg }

/-- The summary dictionary of `TikAPITester._generate_summary`
(`src/test_tikapi.py` lines 147-169), numeric fields only (the `results` echo
is omitted).  `offline_detected` is `successful - live_count` over Python
ints, i.e. over `ℤ`. -/
structure ScriptSummary where
  total_tests : Nat
  successful : Nat
  failed : Nat
  success_rate : ℚ
  average_response_time : ℚ
  live_detected : Nat
  offline_detected : ℤ
deriving Repr, DecidableEq

/-- `TikAPITester._generate_summary` (`src/test_tikapi.py` lines 147-169).
`successful` counts `r["success"]`; `response_times` keeps the successful
entries; `live_count` counts entries whose `r.get("is_live")` is truthy
(an absent key yields `None`, which is falsy). -/
def generate_summary (results : List ScriptResult) : ScriptSummary :=
  let total : Nat := results.length
  let successful : Nat := (results.filter (·.success)).length
  let failed : Nat := total - successful
  let response_times : List ℚ :=
    (results.filter (·.success)).map (·.response_time)
  let avg_response : ℚ :=
    if response_times.isEmpty then 0
    else response_times.sum / response_times.length
  let live_count : Nat :=
    (results.filter (fun r => r.is_live.getD false)).length
  { total_tests := total, successful := successful, failed := failed,
    success_rate := if 0 < total then ((successful : ℚ) / total) * 100 else 0,
    average_response_time := avg_response,
    live_detected := live_count,
    offline_detected := (successful : ℤ) - (live_count : ℤ) }

/-! ## Auxiliary definitions for stating the spec's claims -/

/-- The denominator prescribed by the spec's match-rate invariant: the number
of entries whose `match` value is defined. -/
def definedMatchCount (results : List TestResult) : Nat :=
  (results.filter (fun r => !(r.matchField == none))).length

/-- The match rate as the spec's invariant prescribes it: matches over
entries with a defined `match` value. -/
def claimed_match_rate (results : List TestResult) : ℚ :=
  (((results.filter (fun r => r.matchField == some true)).length : ℚ) /
    (definedMatchCount results : ℚ)) * 100

/-- The unrounded Source A average that `compare_bulk_users` actually
computes: the mean of the recorded response times over the entries whose
time is truthy (not `None`, not `0`), `0` when that set is empty. -/
def truthy_time_mean_tikapi (results : List TestResult) : ℚ :=
  let ts := (results.filter (fun r => pyTruthyQ r.tikapi_response_time)).map
    (fun r => r.tikapi_response_time.getD 0)
  if ts.isEmpty then 0 else ts.sum / (ts.length : ℚ)

/-- The unrounded Source B average that `compare_bulk_users` actually
computes, analogous to `truthy_time_mean_tikapi`. -/
def truthy_time_mean_tiktok (results : List TestResult) : ℚ :=
  let ts := (results.filter (fun r => pyTruthyQ r.tiktok_live_response_time)).map
    (fun r => r.tiktok_live_response_time.getD 0)
  if ts.isEmpty then 0 else ts.sum / (ts.length : ℚ)

/-- The unrounded average that `test_bulk_users` actually computes on a
non-empty batch: the sum of the truthy (nonzero) recorded response times
divided by the FULL batch size. -/
def truthy_time_sum_over_total (entries : List BulkEntry) : ℚ :=
  ((entries.filter (fun e => !(decide (e.response_time_ms = 0)))).map
    (·.response_time_ms)).sum / (entries.length : ℚ)

/-- The per-identifier result list that `TikAPITester.test_multiple_users`
accumulates over one iteration (`src/test_tikapi.py` lines 124-145) and
passes to `_generate_summary`: one `check_user_live_status` result per
identifier, with outcomes and elapsed times supplied per identifier. -/
def script_results (inputs : List (String × ScriptOutcome × ℚ)) :
    List ScriptResult :=
  inputs.map (fun t => check_user_live_status t.1 t.2.1 t.2.2)

/-! ## Helper lemmas -/

/-- The sleep counter of the paced batch loop equals the number of
identifiers: one delay is issued at the end of every iteration. -/
theorem paced_loop_sleep_count {α : Type} (step : String → α)
    (usernames : List String) : (paced_loop step usernames).2 = usernames.length := by
  suffices h : ∀ (acc : List α) (n : ℕ),
      (usernames.foldl (fun acc u => (acc.1 ++ [step u], acc.2 + 1)) (acc, n)).2 =
        n + usernames.length by
    simpa [paced_loop] using h [] 0
  induction usernames with
  | nil => intro acc n; simp
  | cons x xs ih =>
    intro acc n
    simpa [List.foldl_cons, Nat.add_comm, Nat.add_assoc, Nat.add_left_comm]
      using ih (acc ++ [step x]) (n + 1)

/-- A string starting with `"HTTP "` is non-empty. -/
theorem http_error_nonempty (a : String) : ("HTTP " ++ a) ≠ "" := by
  intro h
  have hlen := congrArg String.length h
  rw [String.length_append] at hlen
  have h5 : ("HTTP " : String).length = 5 := rfl
  have h0 : ("" : String).length = 0 := rfl
  rw [h5, h0] at hlen
  omega

/-- Filtering by a pointwise-stronger predicate yields at most as many
elements. -/
theorem filter_length_mono {α : Type} (p q : α → Bool) (l : List α)
    (h : ∀ a ∈ l, p a = true → q a = true) :
    (l.filter p).length ≤ (l.filter q).length := by
  induction l with
  | nil => simp
  | cons x xs ih =>
    have hx := h x (by simp)
    have ih' := ih (fun a ha hpa => h a (by simp [ha]) hpa)
    by_cases hp : p x = true
    · rw [List.filter_cons_of_pos hp, List.filter_cons_of_pos (hx hp)]
      simpa using ih'
    · rw [List.filter_cons_of_neg hp]
      cases hq : q x
      · rw [List.filter_cons_of_neg (by simp [hq])]
        exact ih'
      · rw [List.filter_cons_of_pos (by simp [hq])]
        exact Nat.le_succ_of_le ih'

/-- A result of the script's probe that carries a truthy `is_live` value is a
successful result: every failure branch of `check_user_live_status` omits the
`is_live` key. -/
theorem script_live_implies_success (u : String) (o : ScriptOutcome) (rt : ℚ)
    (h : (check_user_live_status u o rt).is_live.getD false = true) :
    (check_user_live_status u o rt).success = true := by
  cases o with
  | response code body =>
    by_cases hc : (code == 200) = true
    · simp [check_user_live_status, hc]
    · have hc' : (code == 200) = false := by
        revert hc; cases code == 200 <;> simp
      simp [check_user_live_status, hc'] at h
  | timeout => simp [check_user_live_status] at h
  | exception msg => simp [check_user_live_status] at h

/-! ## Claim theorems -/

/-- C1: for every identifier and every pair of probe outcomes,
`compare_single_user` sets the `match` field to the boolean equality of the
two probes' `is_live` values if and only if both probes report success; in
every other case `match` is `none` (unset), never `false`. -/
theorem C1_match_iff_both_succeeded (u : String) (aOut : HttpOutcome) (aRt : ℚ)
    (bAvail : Bool) (bOut : LiveOutcome) (bRt : ℚ) :
    ((compare_single_user u aOut aRt bAvail bOut bRt).matchField ≠ none ↔
      ((check_live_status aOut aRt).success = true ∧
        (check_with_tiktok_live bAvail bOut bRt).success = true)) ∧
    ((check_live_status aOut aRt).success = true →
      (check_with_tiktok_live bAvail bOut bRt).success = true →
      (compare_single_user u aOut aRt bAvail bOut bRt).matchField =
        some ((check_live_status aOut aRt).is_live ==
          (check_with_tiktok_live bAvail bOut bRt).is_live)) ∧
    (¬ ((check_live_status aOut aRt).success = true ∧
        (check_with_tiktok_live bAvail bOut bRt).success = true) →
      (compare_single_user u aOut aRt bAvail bOut bRt).matchField = none) := by
  have hmf : (compare_single_user u aOut aRt bAvail bOut bRt).matchField =
      if (check_live_status aOut aRt).success &&
          (check_with_tiktok_live bAvail bOut bRt).success
      then some ((check_live_status aOut aRt).is_live ==
        (check_with_tiktok_live bAvail bOut bRt).is_live)
      else none := rfl
  cases ha : (check_live_status aOut aRt).success <;>
    cases hb : (check_with_tiktok_live bAvail bOut bRt).success <;>
      simp [hmf, ha, hb]

/-- C1 witness: at a concrete input where both probes succeed with
`is_live = some false`, the `match` field is defined and equal to the boolean
equality of the two answers. -/
theorem C1_match_iff_both_succeeded_witness :
    (compare_single_user "a" (.response 200 ⟨none⟩ "") 10 true (.ok false) 20).matchField =
      some ((check_live_status (.response 200 ⟨none⟩ "") 10).is_live ==
        (check_with_tiktok_live true (.ok false) 20).is_live) :=
  (C1_match_iff_both_succeeded "a" (.response 200 ⟨none⟩ "") 10 true
    (.ok false) 20).2.1 rfl rfl

/-- C8: when the TikTokLive library is unavailable, every call to
`check_with_tiktok_live`, whatever the underlying outcome and elapsed time
would have been, returns the fixed result `success = false`, `is_live`
unset, `response_time = 0`, error `"TikTokLive not available"`. -/
theorem C8_unavailable_short_circuits (o : LiveOutcome) (rt : ℚ) :
    check_with_tiktok_live false o rt =
      { success := false, is_live := none, response_time := 0,
        error := some "TikTokLive not available" } := rfl

/-- C9: when the TikTokLive library is available and the underlying check
raises `UserOffline` or `LiveNotFound`, the probe reports a successful
confirmed-offline answer: `success = true`, `is_live = some false`, no
error. -/
theorem C9_offline_exception_is_success (rt : ℚ) :
    check_with_tiktok_live true .offlineOrNotFound rt =
      { success := true, is_live := some false, response_time := rt,
        error := none } := rfl

/-- C5 counterexample: a batch with the single identifier `"a"` performs 1
pacing delay, not `k - 1 = 0`: the loop sleeps after every identifier,
including the last. -/
theorem C5_counterexample :
    (test_bulk_users ["a"] (fun _ => .exception "x") (fun _ => 1)).2 = 1 ∧
    ¬ ((test_bulk_users ["a"] (fun _ => .exception "x") (fun _ => 1)).2 =
        (["a"] : List String).length - 1) := by
  constructor
  · rfl
  · decide

/-- C5 amended: for every batch of `k` identifiers, both batch endpoints
perform exactly `k` pacing delays — one `asyncio.sleep(0.5)` at the end of
every iteration, including after the last identifier. -/
theorem C5_one_delay_per_identifier (usernames : List String)
    (out : String → HttpOutcome) (rt : String → ℚ)
    (aOut : String → HttpOutcome) (aRt : String → ℚ) (bAvail : Bool)
    (bOut : String → LiveOutcome) (bRt : String → ℚ) :
    (test_bulk_users usernames out rt).2 = usernames.length ∧
    (compare_bulk_users usernames aOut aRt bAvail bOut bRt).2 =
      usernames.length :=
  ⟨paced_loop_sleep_count _ usernames, paced_loop_sleep_count _ usernames⟩

/-- C6 counterexample: the script extractor does not return the first truthy
signal among the known fields.  On the payload `{"user": {}, "data":
{"is_live": true}}` the `data.is_live` field carries a truthy signal, yet
`_extract_live_status` returns `False` because it answers from the first
PRESENT container (`user`), whether or not that container holds the field. -/
theorem C6_counterexample :
    extract_live_status ⟨some none, some (some true)⟩ = false ∧
    extract_first_truthy_signal ⟨some none, some (some true)⟩ = true ∧
    extract_live_status ⟨some none, some (some true)⟩ ≠
      extract_first_truthy_signal ⟨some none, some (some true)⟩ := by
  refine ⟨rfl, rfl, ?_⟩
  decide

/-- C6 amended: the app probe reports `is_live = true` exactly when the
payload's `userInfo.user.roomId` is present and non-empty (so a payload
carrying `roomId = "123"` there yields `is_live = true` via the roomId path),
and a payload with none of the known fields yields `succeeded = true` with
`is_live = some false`, not unknown.  The script extractor answers from the
first PRESENT container in the fixed order `user` before `data`, returning
that container's `is_live` value with default `false` — not the first truthy
signal. -/
theorem C6_live_field_detection :
    (∀ rt : ℚ, check_live_status
        (.response 200 ⟨some ⟨some ⟨some "123"⟩⟩⟩ "") rt =
      { success := true, is_live := some true, response_time := rt,
        error := none }) ∧
    (∀ rt : ℚ, check_live_status (.response 200 ⟨none⟩ "") rt =
      { success := true, is_live := some false, response_time := rt,
        error := none }) ∧
    (∀ (body : TikApiPayload) (text : String) (rt : ℚ),
      (check_live_status (.response 200 body text) rt).success = true ∧
      (check_live_status (.response 200 body text) rt).is_live =
        some (roomIdLive (payloadRoomId body))) ∧
    (∀ (u : Option Bool) (d : Option (Option Bool)),
      extract_live_status ⟨some u, d⟩ = u.getD false) ∧
    (∀ d : Option Bool, extract_live_status ⟨none, some d⟩ = d.getD false) ∧
    extract_live_status ⟨none, none⟩ = false := by
  refine ⟨fun rt => ?_, fun rt => rfl, fun body text rt => ⟨rfl, rfl⟩,
    fun u d => rfl, fun d => rfl, rfl⟩
  simp [check_live_status, payloadRoomId, roomIdLive]

/-- C7: the probes never raise: every transport failure (non-200 status,
timeout, or an exception carrying a non-empty `str(e)`) produces a result
with `success = false`, `is_live` unset, and a non-empty error message —
in `check_live_status` of the app, `check_user_live_status` of the script,
and the TikTokLive probe's timeout branch.  Totality of the embedded
functions reflects that the Python bodies catch every exception. -/
theorem C7_failures_never_raise (code : Nat) (body : TikApiPayload)
    (text : String) (rt : ℚ) (msg : String) (u : String) (p : ScriptPayload)
    (hc : code ≠ 200) (hm : msg ≠ "") :
    (∃ e, check_live_status (.response code body text) rt =
        { success := false, is_live := none, response_time := rt,
          error := some e } ∧ e ≠ "") ∧
    (∃ e, check_live_status (.exception msg) rt =
        { success := false, is_live := none, response_time := rt,
          error := some e } ∧ e ≠ "") ∧
    (∃ e, check_user_live_status u (.response code p) rt =
        { username := u, success := false, is_live := none,
          response_time := rt, error := some e } ∧ e ≠ "") ∧
    (∃ e, check_user_live_status u .timeout rt =
        { username := u, success := false, is_live := none,
          response_time := rt, error := some e } ∧ e ≠ "") ∧
    (∃ e, check_user_live_status u (.exception msg) rt =
        { username := u, success := false, is_live := none,
          response_time := rt, error := some e } ∧ e ≠ "") ∧
    (∃ e, check_with_tiktok_live true .timeout rt =
        { success := false, is_live := none, response_time := rt,
          error := some e } ∧ e ≠ "") := by
  have hc' : (code == 200) = false := by simpa using hc
  refine ⟨⟨"HTTP " ++ toString code ++ ": " ++ text, ?_, ?_⟩,
    ⟨msg, rfl, hm⟩,
    ⟨"HTTP " ++ toString code, ?_, http_error_nonempty _⟩,
    ⟨"Timeout", rfl, by decide⟩,
    ⟨msg, rfl, hm⟩,
    ⟨"Timeout", rfl, by decide⟩⟩
  · simp [check_live_status, hc']
  · intro h
    have hlen := congrArg String.length h
    rw [String.length_append, String.length_append, String.length_append]
      at hlen
    have h5 : ("HTTP " : String).length = 5 := rfl
    have h0 : ("" : String).length = 0 := rfl
    rw [h5, h0] at hlen
    omega
  · simp [check_user_live_status, hc']

/-- C7 witness: at status 404, message `"boom"`, the failure shapes hold
concretely. -/
theorem C7_failures_never_raise_witness :
    (404 : Nat) ≠ 200 ∧ ("boom" : String) ≠ "" ∧
    ((∃ e, check_live_status (.response 404 ⟨none⟩ "nf") 7 =
        { success := false, is_live := none, response_time := 7,
          error := some e } ∧ e ≠ "") ∧
    (∃ e, check_live_status (.exception "boom") 7 =
        { success := false, is_live := none, response_time := 7,
          error := some e } ∧ e ≠ "") ∧
    (∃ e, check_user_live_status "u" (.response 404 ⟨none, none⟩) 7 =
        { username := "u", success := false, is_live := none,
          response_time := 7, error := some e } ∧ e ≠ "") ∧
    (∃ e, check_user_live_status "u" .timeout 7 =
        { username := "u", success := false, is_live := none,
          response_time := 7, error := some e } ∧ e ≠ "") ∧
    (∃ e, check_user_live_status "u" (.exception "boom") 7 =
        { username := "u", success := false, is_live := none,
          response_time := 7, error := some e } ∧ e ≠ "") ∧
    (∃ e, check_with_tiktok_live true .timeout 7 =
        { success := false, is_live := none, response_time := 7,
          error := some e } ∧ e ≠ "")) :=
  ⟨by decide, by decide,
    C7_failures_never_raise 404 ⟨none⟩ "nf" 7 "boom" "u" ⟨none, none⟩
      (by decide) (by decide)⟩

/-- C2 counterexample: a batch of two identifiers where `"a"` has a defined
match (both probes succeed and agree, so `match = some true`) and `"b"` has
an undefined match (Source A fails).  The match rate the spec prescribes —
matches over entries with a defined match — is `1/1 * 100 = 100`, but
`compare_bulk_users` divides by the full batch size and returns `50`. -/
theorem C2_counterexample :
    (compare_bulk_stats
        [compare_single_user "a" (.response 200 ⟨none⟩ "") 10 true (.ok false) 20,
         compare_single_user "b" (.exception "x") 10 true (.ok true) 20]).map
      (·.match_rate) = some 50 ∧
    claimed_match_rate
        [compare_single_user "a" (.response 200 ⟨none⟩ "") 10 true (.ok false) 20,
         compare_single_user "b" (.exception "x") 10 true (.ok true) 20] = 100 ∧
    (50 : ℚ) ≠ 100 := by
  refine ⟨?_, ?_, by norm_num⟩
  · norm_num [compare_bulk_stats, compare_single_user, check_live_status,
      check_with_tiktok_live, pyTruthyQ, payloadRoomId, roomIdLive,
      List.filter]
  · norm_num [claimed_match_rate, definedMatchCount, compare_single_user,
      check_live_status, check_with_tiktok_live, payloadRoomId, roomIdLive,
      List.filter]

/-- C2 amended: for every non-empty batch, the match rate returned by
`compare_bulk_users` is the count of entries with `match = True` divided by
the FULL batch size (times 100) whenever at least one such entry exists, and
`0` otherwise — the denominator is never restricted to the entries with a
defined match. -/
theorem C2_match_rate_full_denominator (results : List TestResult)
    (h : results ≠ []) :
    ∃ s, compare_bulk_stats results = some s ∧
      s.match_rate =
        (if 0 < (results.filter (fun r => r.matchField == some true)).length
         then (((results.filter (fun r => r.matchField == some true)).length : ℚ) /
            (results.length : ℚ)) * 100
         else 0) := by
  cases results with
  | nil => exact absurd rfl h
  | cons r rs => exact ⟨_, rfl, rfl⟩

/-- C2 witness: the amended match-rate characterisation at a concrete
one-element batch whose single entry has a defined, true match. -/
theorem C2_match_rate_full_denominator_witness :
    ([compare_single_user "a" (.response 200 ⟨none⟩ "") 10 true (.ok false) 20] :
        List TestResult) ≠ [] ∧
    ∃ s, compare_bulk_stats
        [compare_single_user "a" (.response 200 ⟨none⟩ "") 10 true (.ok false) 20] =
        some s ∧
      s.match_rate =
        (if 0 < (([compare_single_user "a" (.response 200 ⟨none⟩ "") 10 true
            (.ok false) 20] : List TestResult).filter
              (fun r => r.matchField == some true)).length
         then (((([compare_single_user "a" (.response 200 ⟨none⟩ "") 10 true
            (.ok false) 20] : List TestResult).filter
              (fun r => r.matchField == some true)).length : ℚ) /
            (([compare_single_user "a" (.response 200 ⟨none⟩ "") 10 true
              (.ok false) 20] : List TestResult).length : ℚ)) * 100
         else 0) :=
  ⟨by simp, C2_match_rate_full_denominator _ (by simp)⟩

/-- C3 counterexample: a batch with one identifier whose Source A probe
FAILS after 100 ms (and whose Source B probe is unavailable, recording time
0).  No entry succeeded for Source A, so the claimed average — the mean over
entries where the source succeeded — would be `0`; but `compare_bulk_users`
filters by truthy response time, includes the failed probe's 100 ms, and
reports an average of 100. -/
theorem C3_counterexample :
    (compare_single_user "a" (.exception "boom") 100 false (.ok false) 0).tikapi_success
      = false ∧
    (compare_bulk_stats
        [compare_single_user "a" (.exception "boom") 100 false (.ok false) 0]).map
      (·.tikapi_avg_response_time) = some 100 ∧
    (100 : ℚ) ≠ 0 := by
  refine ⟨rfl, ?_, by norm_num⟩
  norm_num [compare_bulk_stats, compare_single_user, check_live_status,
    check_with_tiktok_live, pyTruthyQ, pyRound2, roundHalfEven]

/-- Rounding zero yields zero. -/
theorem pyRound2_zero : pyRound2 0 = 0 := by
  norm_num [pyRound2, roundHalfEven]

/-- C3 amended: for every non-empty batch, the per-source average latency of
`compare_bulk_users` is the mean of the response times over the entries whose
RECORDED response time is truthy (not `None` and not `0`) — successful or
not — rounded to two decimals, and `0` when no entry has a truthy time; in
`test_bulk_users` the truthy-time sum is divided by the FULL batch size. -/
theorem C3_avg_over_truthy_times (results : List TestResult)
    (h : results ≠ []) (entries : List BulkEntry) (h2 : entries ≠ []) :
    (∃ s, compare_bulk_stats results = some s ∧
      s.tikapi_avg_response_time = pyRound2 (truthy_time_mean_tikapi results) ∧
      s.tiktok_live_avg_response_time =
        pyRound2 (truthy_time_mean_tiktok results) ∧
      (results.filter (fun r => pyTruthyQ r.tikapi_response_time) = [] →
        s.tikapi_avg_response_time = 0)) ∧
    (∃ t, test_bulk_stats entries = some t ∧
      t.avg_response_time_ms =
        pyRound2 (truthy_time_sum_over_total entries)) := by
  constructor
  · cases results with
    | nil => exact absurd rfl h
    | cons r rs =>
      refine ⟨_, rfl, rfl, rfl, ?_⟩
      intro hemp
      show pyRound2 (truthy_time_mean_tikapi (r :: rs)) = 0
      rw [truthy_time_mean_tikapi, hemp]
      simpa using pyRound2_zero
  · cases entries with
    | nil => exact absurd rfl h2
    | cons e es => exact ⟨_, rfl, rfl⟩

/-- C3 witness: the amended average-latency characterisation at a concrete
one-element batch (failed Source A probe recorded at 100 ms) and a concrete
one-element single-source batch. -/
theorem C3_avg_over_truthy_times_witness :
    ([compare_single_user "a" (.exception "boom") 100 false (.ok false) 0] :
        List TestResult) ≠ [] ∧
    (([⟨"a", false, none, 100, some "boom"⟩] : List BulkEntry) ≠ []) ∧
    ((∃ s, compare_bulk_stats
        [compare_single_user "a" (.exception "boom") 100 false (.ok false) 0] =
        some s ∧
      s.tikapi_avg_response_time = pyRound2 (truthy_time_mean_tikapi
        [compare_single_user "a" (.exception "boom") 100 false (.ok false) 0]) ∧
      s.tiktok_live_avg_response_time = pyRound2 (truthy_time_mean_tiktok
        [compare_single_user "a" (.exception "boom") 100 false (.ok false) 0]) ∧
      (([compare_single_user "a" (.exception "boom") 100 false (.ok false) 0] :
          List TestResult).filter (fun r => pyTruthyQ r.tikapi_response_time) = [] →
        s.tikapi_avg_response_time = 0)) ∧
    (∃ t, test_bulk_stats ([⟨"a", false, none, 100, some "boom"⟩] :
        List BulkEntry) = some t ∧
      t.avg_response_time_ms = pyRound2 (truthy_time_sum_over_total
        [⟨"a", false, none, 100, some "boom"⟩]))) :=
  ⟨by simp, by simp,
    C3_avg_over_truthy_times
      [compare_single_user "a" (.exception "boom") 100 false (.ok false) 0]
      (by simp) ([⟨"a", false, none, 100, some "boom"⟩] : List BulkEntry)
      (by simp)⟩

/-- C4: for every non-empty batch, the reported success rate is exactly
`S / N * 100` where `S` counts the successful probes and `N` is the batch
size — in the single-source bulk endpoint, per source in the comparison
endpoint, and in the script summary. -/
theorem C4_success_rate_is_S_over_N (entries : List BulkEntry)
    (h1 : entries ≠ []) (results : List TestResult) (h2 : results ≠ [])
    (script : List ScriptResult) (h3 : script ≠ []) :
    (∃ t, test_bulk_stats entries = some t ∧
      t.success_rate = (((entries.filter (·.success)).length : ℚ) /
        (entries.length : ℚ)) * 100) ∧
    (∃ s, compare_bulk_stats results = some s ∧
      s.tikapi_success_rate =
        (((results.filter (·.tikapi_success)).length : ℚ) /
          (results.length : ℚ)) * 100 ∧
      s.tiktok_live_success_rate =
        (((results.filter (·.tiktok_live_success)).length : ℚ) /
          (results.length : ℚ)) * 100) ∧
    (generate_summary script).success_rate =
      (((script.filter (·.success)).length : ℚ) / (script.length : ℚ)) * 100 := by
  refine ⟨?_, ?_, ?_⟩
  · cases entries with
    | nil => exact absurd rfl h1
    | cons e es => exact ⟨_, rfl, rfl⟩
  · cases results with
    | nil => exact absurd rfl h2
    | cons r rs => exact ⟨_, rfl, rfl, rfl⟩
  · cases script with
    | nil => exact absurd rfl h3
    | cons r rs => simp [generate_summary]

/-- C4 witness: a concrete batch of `N = 4` identifiers with `S = 3`
successes yields exactly 75.0% in the single-source endpoint, with the exact
`S / N` characterisation holding simultaneously for concrete comparison and
script batches. -/
theorem C4_success_rate_is_S_over_N_witness :
    ([⟨"a", true, some true, 1, none⟩, ⟨"b", true, some false, 2, none⟩,
      ⟨"c", true, some false, 3, none⟩, ⟨"d", false, none, 4, some "e"⟩] :
        List BulkEntry) ≠ [] ∧
    ([compare_single_user "c" (.response 200 ⟨none⟩ "") 10 true (.ok true) 20] :
        List TestResult) ≠ [] ∧
    ([⟨"a", true, some true, 1, none⟩] : List ScriptResult) ≠ [] ∧
    ((∃ t, test_bulk_stats
        [⟨"a", true, some true, 1, none⟩, ⟨"b", true, some false, 2, none⟩,
         ⟨"c", true, some false, 3, none⟩, ⟨"d", false, none, 4, some "e"⟩] =
          some t ∧
      t.success_rate = (((([⟨"a", true, some true, 1, none⟩,
          ⟨"b", true, some false, 2, none⟩, ⟨"c", true, some false, 3, none⟩,
          ⟨"d", false, none, 4, some "e"⟩] : List BulkEntry).filter
            (·.success)).length : ℚ) /
        (([⟨"a", true, some true, 1, none⟩, ⟨"b", true, some false, 2, none⟩,
          ⟨"c", true, some false, 3, none⟩, ⟨"d", false, none, 4, some "e"⟩] :
            List BulkEntry).length : ℚ)) * 100) ∧
    (∃ s, compare_bulk_stats
        [compare_single_user "c" (.response 200 ⟨none⟩ "") 10 true (.ok true) 20] =
          some s ∧
      s.tikapi_success_rate =
        (((([compare_single_user "c" (.response 200 ⟨none⟩ "") 10 true
            (.ok true) 20] : List TestResult).filter
              (·.tikapi_success)).length : ℚ) /
          (([compare_single_user "c" (.response 200 ⟨none⟩ "") 10 true
            (.ok true) 20] : List TestResult).length : ℚ)) * 100 ∧
      s.tiktok_live_success_rate =
        (((([compare_single_user "c" (.response 200 ⟨none⟩ "") 10 true
            (.ok true) 20] : List TestResult).filter
              (·.tiktok_live_success)).length : ℚ) /
          (([compare_single_user "c" (.response 200 ⟨none⟩ "") 10 true
            (.ok true) 20] : List TestResult).length : ℚ)) * 100) ∧
    (generate_summary [⟨"a", true, some true, 1, none⟩]).success_rate =
      (((([⟨"a", true, some true, 1, none⟩] : List ScriptResult).filter
          (·.success)).length : ℚ) /
        (([⟨"a", true, some true, 1, none⟩] : List ScriptResult).length : ℚ)) *
        100) ∧
    (test_bulk_stats
        [⟨"a", true, some true, 1, none⟩, ⟨"b", true, some false, 2, none⟩,
         ⟨"c", true, some false, 3, none⟩, ⟨"d", false, none, 4, some "e"⟩]).map
      (·.success_rate) = some 75 :=
  ⟨by simp, by simp, by simp,
    C4_success_rate_is_S_over_N
      [⟨"a", true, some true, 1, none⟩, ⟨"b", true, some false, 2, none⟩,
       ⟨"c", true, some false, 3, none⟩, ⟨"d", false, none, 4, some "e"⟩]
      (by simp)
      [compare_single_user "c" (.response 200 ⟨none⟩ "") 10 true (.ok true) 20]
      (by simp) [⟨"a", true, some true, 1, none⟩] (by simp),
    by norm_num [test_bulk_stats, List.filter]⟩

/-- C10: for every list of per-identifier results the script's probe can
produce, the summary satisfies `failed = total_tests - successful`,
`live_detected + offline_detected = successful`, and `offline_detected ≥ 0`
(an entry counted as live is always counted as successful, since failed
entries carry no `is_live` field). -/
theorem C10_script_summary_invariants
    (inputs : List (String × ScriptOutcome × ℚ)) :
    (generate_summary (script_results inputs)).failed =
      (generate_summary (script_results inputs)).total_tests -
        (generate_summary (script_results inputs)).successful ∧
    ((generate_summary (script_results inputs)).live_detected : ℤ) +
      (generate_summary (script_results inputs)).offline_detected =
      ((generate_summary (script_results inputs)).successful : ℤ) ∧
    0 ≤ (generate_summary (script_results inputs)).offline_detected := by
  have hmono : ((script_results inputs).filter
      (fun r => r.is_live.getD false)).length ≤
      ((script_results inputs).filter (fun r => r.success)).length := by
    apply filter_length_mono
    intro r hr hlive
    simp only [script_results] at hr
    rcases List.mem_map.mp hr with ⟨t, ht, rfl⟩
    exact script_live_implies_success t.1 t.2.1 t.2.2 hlive
  refine ⟨rfl, ?_, ?_⟩
  · simp only [generate_summary]
    omega
  · simp only [generate_summary]
    omega

end TikApi
